import Mathlib

/- Shallow embedding of the space-boundary resolution pipeline of
src/IfcPython/read_boundaries.py (the BIMxBEM repository).

Boundaries and elements are identified by natural numbers.  FreeCAD
FeaturePython objects become a `Boundary` record; the whole document becomes a
`Model` holding a store of boundaries, each element's `ProvidesBoundaries`
list, and the geometry kernel's coplanarity answer for each pair of boundary
shapes (shapes are immutable after creation, so that answer is a fixed oracle).
Real-valued quantities (areas, centroids, direction ratios) are exact
integers: the claims under study are control-flow and bookkeeping properties
whose truth does not depend on the numeric carrier, and the concrete inputs
below are integral in working units (millimetres).

Mutation of FreeCAD properties is modelled as functional update of the store;
a Python exception is an `Except.error` carrying the message together with the
state at the moment of the raise (nothing after the raise runs, so that state
is exactly what the aborted run leaves behind).

Each state-mutating primitive also appends an event to an instrumentation log
(`Model.log`); the log does not influence any control flow and exists only so
that the order of the pipeline's phases is observable in theorems. -/

/-- Events recorded by the state-mutating primitives, in execution order. -/
inductive PipelineEvent where
  | assignCorresponding (b other : Nat)
  | registerCoplanar (b other : Nat)
  | assignParent (b parent : Nat)
  | attachInner (host b : Nat)
deriving DecidableEq, Repr

/-- Event class test: CorrespondingBoundary assignment. -/
def PipelineEvent.isCorrEvent : PipelineEvent → Bool
  | .assignCorresponding _ _ => true
  | _ => false

/-- Event class test: coplanarity/hosting (topology) resolution. -/
def PipelineEvent.isTopoEvent : PipelineEvent → Bool
  | .registerCoplanar _ _ => true
  | .assignParent _ _ => true
  | .attachInner _ _ => true
  | .assignCorresponding _ _ => false

/-- The `InternalOrExternalBoundary` enumeration of `RelSpaceBoundary.__init__`
(read_boundaries.py lines 474-483). -/
inductive IntExtClass where
  | INTERNAL
  | EXTERNAL
  | EXTERNAL_EARTH
  | EXTERNAL_WATER
  | EXTERNAL_FIRE
  | NOTDEFINED
deriving DecidableEq, Repr

/-- A FreeCAD vector with exact integer coordinates. -/
structure Vec3 where
  x : ℤ
  y : ℤ
  z : ℤ
deriving DecidableEq, Repr

/-- Squared Euclidean distance between two points.  The source compares
`FreeCAD.Vector.distanceToPoint` results; distances are nonnegative, so every
comparison of distances in the source is equivalent to the same comparison of
squared distances, which keeps all arithmetic exact. -/
def distSq (a b : Vec3) : ℤ :=
  (a.x - b.x) ^ 2 + (a.y - b.y) ^ 2 + (a.z - b.z) ^ 2

/-- The fields of one `RelSpaceBoundary` FeaturePython object that the
resolution passes read or write (read_boundaries.py lines 460-522).  Links are
boundary/space/element identifiers; an unset `App::PropertyLink` is `none`. -/
structure Boundary where
  relatingSpace : Nat
  relatedBuildingElement : Nat
  internalOrExternalBoundary : IntExtClass
  isHosted : Bool
  area : ℤ
  areaWithHosted : ℤ
  centerOfMass : Vec3
  correspondingBoundary : Option Nat
  parentBoundary : Option Nat
  innerBoundaries : List Nat
  coplanarWith : List Nat
deriving DecidableEq, Repr

/-- The FreeCAD document state seen by the resolution passes:
`boundary` is the store of RelSpaceBoundary objects, `providesBoundaries e`
is element `e`'s `ProvidesBoundaries` link list, and `coplanarTest` is the
geometry kernel's answer to `is_coplanar` for each ordered pair of boundary
shapes (shapes are immutable once created, so the oracle is fixed). -/
structure Model where
  boundary : Nat → Boundary
  providesBoundaries : Nat → List Nat
  coplanarTest : Nat → Nat → Bool
  log : List PipelineEvent

/-- Replace the stored record of boundary `i`. -/
def Model.setBoundary (m : Model) (i : Nat) (b : Boundary) : Model :=
  { m with boundary := fun j => if j = i then b else m.boundary j }

/-- Assignment `boundary.CorrespondingBoundary = v`
(read_boundaries.py lines 190-191). -/
def Model.setCorr (m : Model) (i v : Nat) : Model :=
  let m1 := m.setBoundary i
    { m.boundary i with correspondingBoundary := some v }
  { m1 with log := m1.log ++ [PipelineEvent.assignCorresponding i v] }

/-- Assignment `fc_boundary.ParentBoundary = host_element`
(read_boundaries.py line 105). -/
def Model.setParent (m : Model) (i v : Nat) : Model :=
  let m1 := m.setBoundary i
    { m.boundary i with parentBoundary := some v }
  { m1 with log := m1.log ++ [PipelineEvent.assignParent i v] }

/-- `RelSpaceBoundary.recompute_area_with_hosted` (lines 516-522): fold the
boundary's own area with the areas of its inner boundaries. -/
def recompute_area_with_hosted (m : Model) (bid : Nat) : ℤ :=
  ((m.boundary bid).innerBoundaries).foldl
    (fun area b => area + (m.boundary b).area)
    (m.boundary bid).area

/-- Setting the `InnerBoundaries` property of boundary `bid`.  In FreeCAD the
property assignment fires `RelSpaceBoundary.onChanged` (lines 511-514), which
immediately recomputes `AreaWithHosted`; both effects are one step here. -/
def set_inner_boundaries (m : Model) (bid : Nat) (v : List Nat) : Model :=
  let m1 := m.setBoundary bid
    { m.boundary bid with innerBoundaries := v }
  m1.setBoundary bid
    { m1.boundary bid with areaWithHosted := recompute_area_with_hosted m1 bid }

/-- The `append(host, "InnerBoundaries", b)` idiom (lines 155-159): read the
current list, append, write it back (which fires `onChanged`). -/
def Model.appendInner (m : Model) (host bid : Nat) : Model :=
  let m1 := set_inner_boundaries m host
    ((m.boundary host).innerBoundaries ++ [bid])
  { m1 with log := m1.log ++ [PipelineEvent.attachInner host bid] }

/-- The `append(b, "CoplanarWith", other)` idiom (lines 96-97 via 155-159). -/
def Model.appendCoplanar (m : Model) (i v : Nat) : Model :=
  let m1 := m.setBoundary i
    { m.boundary i with coplanarWith := (m.boundary i).coplanarWith ++ [v] }
  { m1 with log := m1.log ++ [PipelineEvent.registerCoplanar i v] }

/-- `is_coplanar` (lines 142-145): the answer comes from the geometry kernel
(`Part.Plane(...).toShape().isCoplanar(...)` over the two boundaries' fixed
shapes), modelled by the model's coplanarity oracle. -/
def is_coplanar (m : Model) (b1 b2 : Nat) : Bool :=
  m.coplanarTest b1 b2

/-- `clean_corresponding_candidates` (lines 162-169): take the related
element's `ProvidesBoundaries`, drop the first occurrence of the boundary
itself (`list.remove`), and keep each remaining boundary `b` satisfying
`not b.CorrespondingBoundary or b.RelatingSpace != fc_boundary.RelatingSpace`. -/
def clean_corresponding_candidates (m : Model) (bid : Nat) : List Nat :=
  let other_boundaries :=
    (m.providesBoundaries (m.boundary bid).relatedBuildingElement).erase bid
  other_boundaries.filter fun c =>
    decide ((m.boundary c).correspondingBoundary = none ∨
      (m.boundary c).relatingSpace ≠ (m.boundary bid).relatingSpace)

/-- Candidate selection of `associate_corresponding_boundary` (lines 180-189):
one candidate is taken directly; otherwise a running minimum starting at
10000 (here its square, 100000000, see `distSq`) scans the candidates, and the
result is unbound (`none`) when no candidate beats the initial value. -/
def select_candidate (center : Vec3) (m : Model) (cands : List Nat) :
    Option Nat :=
  match cands with
  | [c] => some c
  | _ =>
    (cands.foldl
      (fun acc c =>
        if distSq center (m.boundary c).centerOfMass < acc.1 then
          (distSq center (m.boundary c).centerOfMass, some c)
        else acc)
      ((100000000 : ℤ), (none : Option Nat))).2

/-- `associate_corresponding_boundary` (lines 172-191).  Non-INTERNAL or
already-paired boundaries return unchanged.  Otherwise a candidate is selected;
if selection leaves `corresponding_boundary` unbound, Python raises `NameError`
at line 190 before either assignment runs, so the error carries the untouched
state; on success both links are assigned in sequence (lines 190-191). -/
def associate_corresponding_boundary (m : Model) (bid : Nat) :
    Except (String × Model) Model :=
  if (m.boundary bid).internalOrExternalBoundary ≠ IntExtClass.INTERNAL ∨
      (m.boundary bid).correspondingBoundary ≠ none then
    Except.ok m
  else
    match select_candidate (m.boundary bid).centerOfMass m
        (clean_corresponding_candidates m bid) with
    | none => Except.error ("NameError: corresponding_boundary", m)
    | some c => Except.ok ((m.setCorr bid c).setCorr c bid)

/-- The matcher phase of `display_boundaries` (lines 78-81): apply
`associate_corresponding_boundary` to every boundary in document order; an
uncaught exception aborts the remaining iterations. -/
def matcher_loop (m : Model) : List Nat → Except (String × Model) Model
  | [] => Except.ok m
  | bid :: rest =>
    match associate_corresponding_boundary m bid with
    | Except.error e => Except.error e
    | Except.ok m1 => matcher_loop m1 rest

/-- `itertools.combinations(fc_boundaries, 2)` (line 94): every unordered pair,
in source order. -/
def combinations2 : List Nat → List (Nat × Nat)
  | [] => []
  | x :: xs => (xs.map fun y => (x, y)) ++ combinations2 xs

/-- The coplanarity loop of `display_boundaries` (lines 94-97): for each pair
with a coplanar kernel answer, register each boundary in the other's
`CoplanarWith` list. -/
def coplanarity_loop (m : Model) : List (Nat × Nat) → Model
  | [] => m
  | p :: rest =>
    if is_coplanar m p.1 p.2 then
      coplanarity_loop ((m.appendCoplanar p.1 p.2).appendCoplanar p.2 p.1) rest
    else coplanarity_loop m rest

/-- The hosting loop of `display_boundaries` (lines 100-117).  `host_element`
is a function-scoped Python variable: it is bound only inside
`if len(fc_boundary.CoplanarWith) == 1` (line 104) and keeps its previous
binding across iterations; the `append(host_element, "InnerBoundaries", ...)`
on line 106 sits outside that `if`, so it uses the stale binding, and raises
`NameError` when no earlier iteration bound it.  The non-hosted branch
(lines 108-117) computes `non_hosted_coplanar` and performs no state change. -/
def hosting_loop (m : Model) (host_element : Option Nat) :
    List Nat → Except (String × Model) Model
  | [] => Except.ok m
  | bid :: rest =>
    if (m.boundary bid).isHosted then
      match (m.boundary bid).coplanarWith with
      | [h] =>
        hosting_loop ((m.setParent bid h).appendInner h bid) (some h) rest
      | _ =>
        match host_element with
        | none => Except.error ("NameError: host_element", m)
        | some h => hosting_loop (m.appendInner h bid) (some h) rest
    else hosting_loop m host_element rest

/-- Python truthiness of the built-in class object `ValueError`: a class object
is always truthy, so `assert ValueError, msg` (line 91) never fails. -/
def valueErrorClassTruthy : Bool := true

/-- Whether the boundary-count check of `display_boundaries` (lines 86-91)
surfaces a modelling defect for a space with `nb` boundaries: a space with
exactly 5 boundaries is skipped (`continue`), a space with fewer than 5 hits
`assert ValueError, msg`, which reports (raises) only if the asserted
expression is falsy, and larger spaces are not checked at all. -/
def space_defect_reported (nb : Nat) : Bool :=
  if nb = 5 then false
  else if nb < 5 then !valueErrorClassTruthy
  else false

/-- The per-space topology pass of `display_boundaries` (lines 84-117): a
space with exactly 5 boundaries is skipped entirely (line 88 `continue`); a
smaller space passes the always-true assert (line 91, see
`space_defect_reported`) and continues; then the coplanarity loop and the
hosting loop run over the space's boundaries. -/
def space_topology_pass (m : Model) (bids : List Nat) :
    Except (String × Model) Model :=
  if bids.length = 5 then Except.ok m
  else hosting_loop (coplanarity_loop m (combinations2 bids)) none bids

/-- The topology phase of `display_boundaries` (lines 84-117): the per-space
pass over each space in document order; an uncaught exception aborts the rest. -/
def topology_phase (m : Model) : List (List Nat) → Except (String × Model) Model
  | [] => Except.ok m
  | s :: rest =>
    match space_topology_pass m s with
    | Except.error e => Except.error e
    | Except.ok m1 => topology_phase m1 rest

/-- The resolution part of `display_boundaries` (lines 78-117), run after all
boundaries have been materialized: first the corresponding-boundary matcher
over every boundary of every space (lines 78-81), then the per-space
coplanarity/hosting resolution (lines 83-117). -/
def display_boundaries_resolution (m : Model) (spaces : List (List Nat)) :
    Except (String × Model) Model :=
  match matcher_loop m spaces.flatten with
  | Except.error e => Except.error e
  | Except.ok m1 => topology_phase m1 spaces

/-- The document state an execution leaves behind: the result state on normal
return, or the state carried by the uncaught exception. -/
def stateOf : Except (String × Model) Model → Model
  | Except.ok m => m
  | Except.error e => e.2

/-- A constructed planar face; only its identity matters to the control flow
of the geometry builder, so one numeric field stands for the whole shape. -/
structure Shape where
  area : ℤ
deriving DecidableEq, Repr

/-- The outcomes of the three external construction tiers for one boundary's
surface (`_part_by_brep`, `part_by_wires`, `_part_by_mesh` call ifcopenshell
and Part, which are external collaborators): each tier either yields a shape
or raises.  The `except RuntimeError` clauses of `create_fc_shape` catch
exactly the failures these tiers raise. -/
structure SurfaceOutcome where
  brep : Except String Shape
  wires : Except String Shape
  mesh : Except String Shape
deriving Repr

/-- The module-level `BREP` toggle (line 29): `False` in the source. -/
def BREP : Bool := false

/-- `create_fc_shape` (lines 270-289): with `BREP` the brep tier is tried and
its failure falls back; then the wires tier is tried, its `RuntimeError`
failure is printed and the mesh tier's result is returned as-is — a mesh-tier
exception propagates uncaught out of `create_fc_shape`. -/
def create_fc_shape (s : SurfaceOutcome) : Except String Shape :=
  if BREP then
    match s.brep with
    | Except.ok sh => Except.ok sh
    | Except.error _ =>
      match s.wires with
      | Except.ok sh => Except.ok sh
      | Except.error _ => s.mesh
  else
    match s.wires with
    | Except.ok sh => Except.ok sh
    | Except.error _ => s.mesh

/-- The boundary-materialization loop of `display_boundaries` (lines 68-76):
`make_relspaceboundary` runs `obj.Shape = create_fc_shape(ifc_entity)` (line
501) for each boundary in turn, with no surrounding `try`, so an exception
escaping `create_fc_shape` aborts the loop and the boundaries after it are
never materialized. -/
def boundary_creation_loop : List SurfaceOutcome → Except String (List Shape)
  | [] => Except.ok []
  | s :: rest =>
    match create_fc_shape s with
    | Except.error e => Except.error e
    | Except.ok sh =>
      match boundary_creation_loop rest with
      | Except.error e => Except.error e
      | Except.ok shapes => Except.ok (sh :: shapes)

/-- Cross product of two FreeCAD vectors. -/
def Vec3.cross (a b : Vec3) : Vec3 :=
  ⟨a.y * b.z - a.z * b.y, a.z * b.x - a.x * b.z, a.x * b.y - a.y * b.x⟩

/-- Dot product of two FreeCAD vectors. -/
def Vec3.dot (a b : Vec3) : ℤ :=
  a.x * b.x + a.y * b.y + a.z * b.z

/-- `FreeCAD.Vector.scale(k, k, k)`: componentwise scaling. -/
def Vec3.scale (v : Vec3) (k : ℤ) : Vec3 :=
  ⟨v.x * k, v.y * k, v.z * k⟩

/-- The model-to-working unit factor `SCALE` (line 32): metres to millimetres. -/
def SCALE : ℤ := 1000

/-- An `IfcAxis2Placement3D`: the `position` argument of `get_matrix`
(`Location.Coordinates`, `RefDirection.DirectionRatios`,
`Axis.DirectionRatios`). -/
structure Position where
  location : Vec3
  refDirection : Vec3
  axis : Vec3
deriving DecidableEq, Repr

/-- A `FreeCAD.Matrix` built from its 16 row-major constructor arguments. -/
structure FCMatrix where
  r11 : ℤ
  r12 : ℤ
  r13 : ℤ
  r14 : ℤ
  r21 : ℤ
  r22 : ℤ
  r23 : ℤ
  r24 : ℤ
  r31 : ℤ
  r32 : ℤ
  r33 : ℤ
  r34 : ℤ
  r41 : ℤ
  r42 : ℤ
  r43 : ℤ
  r44 : ℤ
deriving DecidableEq, Repr

/-- First column of the rotation part (the matrix is handed its rows, so the
frame vectors land in the columns). -/
def FCMatrix.col1 (m : FCMatrix) : Vec3 := ⟨m.r11, m.r21, m.r31⟩

/-- Second column of the rotation part. -/
def FCMatrix.col2 (m : FCMatrix) : Vec3 := ⟨m.r12, m.r22, m.r32⟩

/-- Third column of the rotation part. -/
def FCMatrix.col3 (m : FCMatrix) : Vec3 := ⟨m.r13, m.r23, m.r33⟩

/-- Fourth (translation) column. -/
def FCMatrix.col4 (m : FCMatrix) : Vec3 := ⟨m.r14, m.r24, m.r34⟩

/-- `get_matrix` (lines 345-362): the origin is scaled by `SCALE`,
`v_1 = RefDirection`, `v_3 = Axis`, `v_2 = v_3.cross(v_1)`, and the
`FreeCAD.Matrix` receives `v_1.x, v_2.x, v_3.x, location.x, ...` row by row. -/
def get_matrix (position : Position) : FCMatrix :=
  let location := position.location.scale SCALE
  let v_1 := position.refDirection
  let v_3 := position.axis
  let v_2 := v_3.cross v_1
  ⟨v_1.x, v_2.x, v_3.x, location.x,
   v_1.y, v_2.y, v_3.y, location.y,
   v_1.z, v_2.z, v_3.z, location.z,
   0, 0, 0, 1⟩

/-- A boundary record with every field at its just-created default. -/
def boundary0 : Boundary :=
  { relatingSpace := 0
    relatedBuildingElement := 0
    internalOrExternalBoundary := IntExtClass.NOTDEFINED
    isHosted := false
    area := 0
    areaWithHosted := 0
    centerOfMass := ⟨0, 0, 0⟩
    correspondingBoundary := none
    parentBoundary := none
    innerBoundaries := []
    coplanarWith := [] }

/-- Concrete input for the candidate filter: element 0 provides boundaries 1
and 2, both lying in space 10, both unpaired; boundary 1 is INTERNAL. -/
def cM1 : Model :=
  { boundary := fun i =>
      if i = 1 then
        { boundary0 with relatingSpace := 10
                         internalOrExternalBoundary := IntExtClass.INTERNAL }
      else if i = 2 then
        { boundary0 with relatingSpace := 10 }
      else boundary0
    providesBoundaries := fun e => if e = 0 then [1, 2] else []
    coplanarTest := fun _ _ => false
    log := [] }

/-- Concrete input for the matcher pass: element 0 provides the INTERNAL
boundaries 1, 2, 3 lying in the three distinct spaces 11, 12, 13, all
unpaired, with boundary 2's centroid closest both to boundary 1's and to
boundary 3's. -/
def cM3 : Model :=
  { boundary := fun i =>
      if i = 1 then
        { boundary0 with relatingSpace := 11
                         internalOrExternalBoundary := IntExtClass.INTERNAL
                         centerOfMass := ⟨0, 0, 0⟩ }
      else if i = 2 then
        { boundary0 with relatingSpace := 12
                         internalOrExternalBoundary := IntExtClass.INTERNAL
                         centerOfMass := ⟨10, 0, 0⟩ }
      else if i = 3 then
        { boundary0 with relatingSpace := 13
                         internalOrExternalBoundary := IntExtClass.INTERNAL
                         centerOfMass := ⟨15, 0, 0⟩ }
      else boundary0
    providesBoundaries := fun e => if e = 0 then [1, 2, 3] else []
    coplanarTest := fun _ _ => false
    log := [] }

/-- Concrete input for the matcher's unbound-selection case: element 0
provides the INTERNAL boundaries 1, 2, 3 in distinct spaces, with both
candidates of boundary 1 at squared distance 400000000 (20 m) from it. -/
def cM10 : Model :=
  { boundary := fun i =>
      if i = 1 then
        { boundary0 with relatingSpace := 11
                         internalOrExternalBoundary := IntExtClass.INTERNAL
                         centerOfMass := ⟨0, 0, 0⟩ }
      else if i = 2 then
        { boundary0 with relatingSpace := 12
                         internalOrExternalBoundary := IntExtClass.INTERNAL
                         centerOfMass := ⟨20000, 0, 0⟩ }
      else if i = 3 then
        { boundary0 with relatingSpace := 13
                         internalOrExternalBoundary := IntExtClass.INTERNAL
                         centerOfMass := ⟨0, 20000, 0⟩ }
      else boundary0
    providesBoundaries := fun e => if e = 0 then [1, 2, 3] else []
    coplanarTest := fun _ _ => false
    log := [] }

/-- Concrete space of exactly 5 boundaries, none hosted, where the kernel
reports boundaries 1 and 2 coplanar. -/
def cM5 : Model :=
  { boundary := fun _ => boundary0
    providesBoundaries := fun _ => []
    coplanarTest := fun i j => decide (i = 1 ∧ j = 2)
    log := [] }

/-- Concrete space of 6 boundaries, none hosted, where the kernel reports
boundaries 1 and 2 coplanar (same oracle as `cM5`; only the space's boundary
list differs). -/
def cM6 : Model :=
  { boundary := fun _ => boundary0
    providesBoundaries := fun _ => []
    coplanarTest := fun i j => decide (i = 1 ∧ j = 2)
    log := [] }

/-- Concrete input for the hosting loop: boundary 1 is hosted with the single
coplanar host 2; boundary 3 is hosted with the two coplanar boundaries 2 and
4; boundaries 2 and 4 are not hosted (the `CoplanarWith` lists are as the
coplanarity loop leaves them: mutual). -/
def cH : Model :=
  { boundary := fun i =>
      if i = 1 then
        { boundary0 with isHosted := true, coplanarWith := [2], area := 2 }
      else if i = 2 then
        { boundary0 with coplanarWith := [1, 3], area := 20 }
      else if i = 3 then
        { boundary0 with isHosted := true, coplanarWith := [2, 4], area := 3 }
      else if i = 4 then
        { boundary0 with coplanarWith := [3], area := 40 }
      else boundary0
    providesBoundaries := fun _ => []
    coplanarTest := fun _ _ => false
    log := [] }

/-- Concrete two-space document for the pipeline's phase order: element 0
provides the INTERNAL boundaries 1 (space 11) and 2 (space 12); element 1
provides the EXTERNAL boundaries 3-7 (space 11); the kernel reports
boundaries 3 and 4 coplanar. -/
def cP : Model :=
  { boundary := fun i =>
      if i = 1 then
        { boundary0 with relatingSpace := 11
                         relatedBuildingElement := 0
                         internalOrExternalBoundary := IntExtClass.INTERNAL }
      else if i = 2 then
        { boundary0 with relatingSpace := 12
                         relatedBuildingElement := 0
                         internalOrExternalBoundary := IntExtClass.INTERNAL }
      else if i ≤ 7 then
        { boundary0 with relatingSpace := 11
                         relatedBuildingElement := 1
                         internalOrExternalBoundary := IntExtClass.EXTERNAL }
      else boundary0
    providesBoundaries := fun e =>
      if e = 0 then [1, 2] else if e = 1 then [3, 4, 5, 6, 7] else []
    coplanarTest := fun i j => decide ((i = 3 ∧ j = 4) ∨ (i = 4 ∧ j = 3))
    log := [] }

/-- The space lists of the concrete document `cP`: space 11 holds boundaries
1 and 3-7 (six boundaries), space 12 holds boundary 2 alone. -/
def cPSpaces : List (List Nat) := [[1, 3, 4, 5, 6, 7], [2]]

/-- A surface for which every construction tier raises. -/
def sBad : SurfaceOutcome :=
  { brep := Except.error "RuntimeError"
    wires := Except.error "RuntimeError"
    mesh := Except.error "RuntimeError" }

/-- A surface for which every construction tier succeeds. -/
def sOk : SurfaceOutcome :=
  { brep := Except.ok ⟨6⟩
    wires := Except.ok ⟨6⟩
    mesh := Except.ok ⟨6⟩ }

/-- A concrete surface basis: origin (1, 2, 3), reference direction x,
axis direction z. -/
def p0 : Position :=
  { location := ⟨1, 2, 3⟩
    refDirection := ⟨1, 0, 0⟩
    axis := ⟨0, 0, 1⟩ }

theorem setBoundary_get (m : Model) (i : Nat) (b : Boundary) (j : Nat) :
    (m.setBoundary i b).boundary j = if j = i then b else m.boundary j := rfl

theorem foldl_add_map (l : List Nat) (f : Nat → ℤ) (a : ℤ) :
    l.foldl (fun s h => s + f h) a = a + (l.map f).sum := by
  induction l generalizing a with
  | nil => simp
  | cons x xs ih => simp [ih, add_assoc]

theorem set_inner_boundaries_inner (m : Model) (bid : Nat) (v : List Nat) :
    ((set_inner_boundaries m bid v).boundary bid).innerBoundaries = v := by
  simp [set_inner_boundaries, Model.setBoundary]

theorem set_inner_boundaries_area (m : Model) (bid : Nat) (v : List Nat)
    (j : Nat) :
    ((set_inner_boundaries m bid v).boundary j).area = (m.boundary j).area := by
  by_cases h : j = bid <;> simp [set_inner_boundaries, Model.setBoundary, h]

theorem set_inner_boundaries_awh (m : Model) (bid : Nat) (v : List Nat) :
    ((set_inner_boundaries m bid v).boundary bid).areaWithHosted =
      (m.boundary bid).area + (v.map fun h => (m.boundary h).area).sum := by
  simp only [set_inner_boundaries, Model.setBoundary, recompute_area_with_hosted]
  simp only [if_pos, eq_self_iff_true, if_true]
  rw [foldl_add_map]
  congr 1
  congr 1
  apply List.map_congr_left
  intro h _
  by_cases hh : h = bid <;> simp [hh]

/-- C4: mutating a boundary's `InnerBoundaries` (directly, or through the
`append` idiom the hosting pass uses) fires `onChanged`, which recomputes
`AreaWithHosted` in the same step, so the resulting state already satisfies
`AreaWithHosted = Area + Σ Area(h) for h ∈ InnerBoundaries` before anything
else can read it. -/
theorem area_with_hosted_recomputed (m : Model) (bid : Nat) (v : List Nat)
    (host b : Nat) :
    (((set_inner_boundaries m bid v).boundary bid).areaWithHosted =
      ((set_inner_boundaries m bid v).boundary bid).area +
        (((set_inner_boundaries m bid v).boundary bid).innerBoundaries.map
          fun h => ((set_inner_boundaries m bid v).boundary h).area).sum) ∧
    (((m.appendInner host b).boundary host).areaWithHosted =
      ((m.appendInner host b).boundary host).area +
        (((m.appendInner host b).boundary host).innerBoundaries.map
          fun h => ((m.appendInner host b).boundary h).area).sum) := by
  have core : ∀ (m : Model) (bid : Nat) (v : List Nat),
      ((set_inner_boundaries m bid v).boundary bid).areaWithHosted =
        ((set_inner_boundaries m bid v).boundary bid).area +
          (((set_inner_boundaries m bid v).boundary bid).innerBoundaries.map
            fun h => ((set_inner_boundaries m bid v).boundary h).area).sum := by
    intro m bid v
    rw [set_inner_boundaries_awh, set_inner_boundaries_inner,
      set_inner_boundaries_area]
    congr 1
    congr 1
    exact (List.map_congr_left fun h _ => set_inner_boundaries_area m bid v h).symm
  refine ⟨core m bid v, ?_⟩
  have hb : (m.appendInner host b).boundary =
      (set_inner_boundaries m host
        ((m.boundary host).innerBoundaries ++ [b])).boundary := rfl
  rw [hb]
  exact core m host ((m.boundary host).innerBoundaries ++ [b])

/-- C1 (counterexample): in the concrete document `cM1`, boundary 2 lies in
the same space as the INTERNAL, unpaired boundary 1, yet the candidate set
computed for boundary 1 contains boundary 2 — the source filter keeps every
candidate that is unpaired OR in another space, so a same-space unpaired
boundary is not excluded as the claim requires. -/
theorem clean_candidates_keeps_same_space :
    clean_corresponding_candidates cM1 1 = [2] ∧
    (cM1.boundary 1).internalOrExternalBoundary = IntExtClass.INTERNAL ∧
    (cM1.boundary 1).correspondingBoundary = none ∧
    (cM1.boundary 2).correspondingBoundary = none ∧
    (cM1.boundary 2).relatingSpace = (cM1.boundary 1).relatingSpace := by
  refine ⟨by decide, rfl, rfl, rfl, rfl⟩

/-- C1 (amended): when the element's `ProvidesBoundaries` list has no
duplicates, the candidate set contains exactly those other boundaries provided
by the same element that are unpaired OR lie in a different space than the
current boundary; only a candidate that is both already paired and in the
current boundary's own space is excluded. -/
theorem clean_candidates_mem (m : Model) (bid c : Nat)
    (h : (m.providesBoundaries (m.boundary bid).relatedBuildingElement).Nodup) :
    c ∈ clean_corresponding_candidates m bid ↔
      c ∈ m.providesBoundaries (m.boundary bid).relatedBuildingElement ∧
        c ≠ bid ∧
        ((m.boundary c).correspondingBoundary = none ∨
          (m.boundary c).relatingSpace ≠ (m.boundary bid).relatingSpace) := by
  unfold clean_corresponding_candidates
  simp only [List.mem_filter, decide_eq_true_eq, h.mem_erase_iff]
  tauto

theorem clean_candidates_mem_witness :
    (cM1.providesBoundaries (cM1.boundary 1).relatedBuildingElement).Nodup ∧
    (2 ∈ clean_corresponding_candidates cM1 1 ↔
      2 ∈ cM1.providesBoundaries (cM1.boundary 1).relatedBuildingElement ∧
        2 ≠ 1 ∧
        ((cM1.boundary 2).correspondingBoundary = none ∨
          (cM1.boundary 2).relatingSpace ≠ (cM1.boundary 1).relatingSpace)) :=
  ⟨by decide, clean_candidates_mem cM1 1 2 (by decide)⟩

/-- C6: the boundary-count check never surfaces a defect, whatever the
boundary count.  At the failing input 3 (a space with only 3 boundaries) the
source reaches `assert ValueError, msg`, whose asserted expression is the
always-truthy class object `ValueError`, so the assert passes and nothing is
reported or raised — the defect is silently accepted. -/
theorem space_defect_never_reported :
    space_defect_reported 3 = false ∧
      ∀ nb : Nat, space_defect_reported nb = false := by
  refine ⟨rfl, fun nb => ?_⟩
  simp [space_defect_reported, valueErrorClassTruthy]

/-- C7 (counterexample): in a run over two boundaries where every construction
tier fails for the first surface while the second surface is perfectly
constructible, the uncaught mesh-tier exception aborts the whole run: the
result is the propagated error, and the second boundary is never processed
(no shape list is produced at all). -/
theorem all_tiers_failure_aborts_run :
    create_fc_shape sOk = Except.ok ⟨6⟩ ∧
    boundary_creation_loop [sBad, sOk] = Except.error "RuntimeError" :=
  ⟨rfl, rfl⟩

/-- C7 (amended): a boundary whose surface is successfully constructed leaves
the rest of the run untouched, but when the wire tier and then the mesh tier
both fail, the mesh-tier exception escapes `create_fc_shape` uncaught and
aborts the run: the remaining boundaries are not processed. -/
theorem boundary_creation_confinement (s : SurfaceOutcome)
    (rest : List SurfaceOutcome) :
    (∀ sh, create_fc_shape s = Except.ok sh →
      boundary_creation_loop (s :: rest) =
        (boundary_creation_loop rest).map fun l => sh :: l) ∧
    (∀ e1 e2, s.wires = Except.error e1 → s.mesh = Except.error e2 →
      boundary_creation_loop (s :: rest) = Except.error e2) := by
  constructor
  · intro sh h
    have e : boundary_creation_loop (s :: rest) =
        match create_fc_shape s with
        | Except.error e => Except.error e
        | Except.ok sh =>
          match boundary_creation_loop rest with
          | Except.error e => Except.error e
          | Except.ok shapes => Except.ok (sh :: shapes) := rfl
    rw [e, h]
    cases hres : boundary_creation_loop rest <;> simp [Except.map]
  · intro e1 e2 hw hm
    have hc : create_fc_shape s = Except.error e2 := by
      unfold create_fc_shape BREP
      rw [if_neg (by simp), hw, hm]
    unfold boundary_creation_loop
    rw [hc]

theorem boundary_creation_confinement_witness :
    sBad.wires = Except.error "RuntimeError" ∧
    sBad.mesh = Except.error "RuntimeError" ∧
    boundary_creation_loop [sBad, sOk] = Except.error "RuntimeError" :=
  ⟨rfl, rfl,
    (boundary_creation_confinement sBad [sOk]).2 "RuntimeError" "RuntimeError"
      rfl rfl⟩

/-- C9 (counterexample): at the concrete basis `p0` (reference direction x,
axis direction z), no column of the rotation part of `get_matrix p0` equals
`reference × axis`: the derived vector the code places in the second column is
`axis × reference`, the opposite of the claimed cross product. -/
theorem get_matrix_not_ref_cross_axis :
    (get_matrix p0).col1 ≠ p0.refDirection.cross p0.axis ∧
    (get_matrix p0).col2 ≠ p0.refDirection.cross p0.axis ∧
    (get_matrix p0).col3 ≠ p0.refDirection.cross p0.axis ∧
    (get_matrix p0).col2 = p0.axis.cross p0.refDirection := by decide

/-- C9 (amended): the derived basis vector of the tier-2 transform is
`axis × reference` (not `reference × axis`), placed as the second column; the
frame's vectors occupy the three rotation columns (reference, axis × reference,
axis), the unit-scaled origin is the translation column, the bottom row is
(0, 0, 0, 1), and the derived column is orthogonal to the two given ones. -/
theorem get_matrix_frame (position : Position) :
    (get_matrix position).col1 = position.refDirection ∧
    (get_matrix position).col2 = position.axis.cross position.refDirection ∧
    (get_matrix position).col3 = position.axis ∧
    (get_matrix position).col4 = position.location.scale SCALE ∧
    (get_matrix position).col2.dot (get_matrix position).col1 = 0 ∧
    (get_matrix position).col2.dot (get_matrix position).col3 = 0 ∧
    (get_matrix position).r41 = 0 ∧ (get_matrix position).r42 = 0 ∧
    (get_matrix position).r43 = 0 ∧ (get_matrix position).r44 = 1 := by
  refine ⟨rfl, rfl, rfl, rfl, ?_, ?_, rfl, rfl, rfl, rfl⟩ <;>
    · simp only [get_matrix, FCMatrix.col1, FCMatrix.col2, FCMatrix.col3,
        Vec3.cross, Vec3.dot]
      ring

theorem appendCoplanar_coplanarWith (m : Model) (i v j : Nat) :
    ((m.appendCoplanar i v).boundary j).coplanarWith =
      if j = i then (m.boundary i).coplanarWith ++ [v]
      else (m.boundary j).coplanarWith := by
  by_cases h : j = i <;> simp [Model.appendCoplanar, Model.setBoundary, h]

theorem appendCoplanar_mem (m : Model) (i v j x : Nat)
    (hx : x ∈ (m.boundary j).coplanarWith) :
    x ∈ ((m.appendCoplanar i v).boundary j).coplanarWith := by
  rw [appendCoplanar_coplanarWith]
  by_cases h : j = i
  · rw [if_pos h]
    exact List.mem_append_left _ (h ▸ hx)
  · rw [if_neg h]
    exact hx

theorem coplanarity_loop_mono (ps : List (Nat × Nat)) :
    ∀ (m : Model) (j x : Nat), x ∈ (m.boundary j).coplanarWith →
      x ∈ ((coplanarity_loop m ps).boundary j).coplanarWith := by
  induction ps with
  | nil => exact fun m j x hx => hx
  | cons p rest ih =>
    intro m j x hx
    simp only [coplanarity_loop]
    split
    · exact ih _ _ _ (appendCoplanar_mem _ _ _ _ _ (appendCoplanar_mem _ _ _ _ _ hx))
    · exact ih _ _ _ hx

theorem coplanarity_loop_registers (ps : List (Nat × Nat)) :
    ∀ (m : Model) (A B : Nat), (A, B) ∈ ps → m.coplanarTest A B = true →
      B ∈ ((coplanarity_loop m ps).boundary A).coplanarWith ∧
      A ∈ ((coplanarity_loop m ps).boundary B).coplanarWith := by
  induction ps with
  | nil => exact fun m A B h _ => absurd h (List.not_mem_nil _)
  | cons p rest ih =>
    intro m A B hmem htest
    simp only [coplanarity_loop]
    rcases List.mem_cons.mp hmem with heq | hrest
    · rw [← heq]
      rw [if_pos (show is_coplanar m (A, B).1 (A, B).2 = true from htest)]
      constructor
      · apply coplanarity_loop_mono
        apply appendCoplanar_mem
        rw [appendCoplanar_coplanarWith, if_pos rfl]
        exact List.mem_append_right _ (by simp)
      · apply coplanarity_loop_mono
        rw [appendCoplanar_coplanarWith, if_pos rfl]
        exact List.mem_append_right _ (by simp)
    · split
      · exact ih _ A B hrest htest
      · exact ih m A B hrest htest

theorem setParent_coplanarWith (m : Model) (i v j : Nat) :
    ((m.setParent i v).boundary j).coplanarWith =
      (m.boundary j).coplanarWith := by
  by_cases h : j = i <;> simp [Model.setParent, Model.setBoundary, h]

theorem set_inner_coplanarWith (m : Model) (i : Nat) (v : List Nat) (j : Nat) :
    ((set_inner_boundaries m i v).boundary j).coplanarWith =
      (m.boundary j).coplanarWith := by
  by_cases h : j = i <;> simp [set_inner_boundaries, Model.setBoundary, h]

theorem appendInner_coplanarWith (m : Model) (host b j : Nat) :
    ((m.appendInner host b).boundary j).coplanarWith =
      (m.boundary j).coplanarWith := by
  have e : (m.appendInner host b).boundary =
      (set_inner_boundaries m host
        ((m.boundary host).innerBoundaries ++ [b])).boundary := rfl
  rw [e, set_inner_coplanarWith]

theorem hosting_loop_coplanarWith (bl : List Nat) :
    ∀ (m : Model) (hv : Option Nat) (j : Nat),
      ((stateOf (hosting_loop m hv bl)).boundary j).coplanarWith =
        (m.boundary j).coplanarWith := by
  induction bl with
  | nil => intro m hv j; rfl
  | cons bid rest ih =>
    intro m hv j
    simp only [hosting_loop]
    split
    · split
      · rw [ih, appendInner_coplanarWith, setParent_coplanarWith]
      · split
        · rfl
        · rw [ih, appendInner_coplanarWith]
    · exact ih m hv j

/-- C5 (counterexample): a space with exactly 5 boundaries is skipped by the
`continue` on line 88, so even though the kernel reports boundaries 1 and 2 of
`cM5` coplanar, the topology pass leaves both `CoplanarWith` lists empty —
the claimed registration does not happen "regardless of how many boundaries
the space contains". -/
theorem five_boundary_space_skipped :
    cM5.coplanarTest 1 2 = true ∧
    space_topology_pass cM5 [1, 2, 3, 4, 5] = Except.ok cM5 ∧
    ((stateOf (space_topology_pass cM5 [1, 2, 3, 4, 5])).boundary 1).coplanarWith
      = [] ∧
    ((stateOf (space_topology_pass cM5 [1, 2, 3, 4, 5])).boundary 2).coplanarWith
      = [] :=
  ⟨rfl, rfl, rfl, rfl⟩

/-- C5 (amended): for a space whose boundary count is not exactly 5, every
unordered pair of its boundaries that the kernel reports coplanar is mutually
registered in each other's `CoplanarWith` by the topology pass (whether or not
the subsequent hosting loop completes); a space with exactly 5 boundaries is
skipped entirely. -/
theorem coplanar_pairs_registered (m : Model) (bids : List Nat) (A B : Nat)
    (hlen : bids.length ≠ 5)
    (hpair : (A, B) ∈ combinations2 bids)
    (hcop : is_coplanar m A B = true) :
    B ∈ ((stateOf (space_topology_pass m bids)).boundary A).coplanarWith ∧
    A ∈ ((stateOf (space_topology_pass m bids)).boundary B).coplanarWith := by
  unfold space_topology_pass
  rw [if_neg hlen]
  simp only [hosting_loop_coplanarWith]
  exact coplanarity_loop_registers _ m A B hpair hcop

theorem coplanar_pairs_registered_witness :
    ([1, 2, 3, 4, 5, 6] : List Nat).length ≠ 5 ∧
    ((1, 2) : Nat × Nat) ∈ combinations2 [1, 2, 3, 4, 5, 6] ∧
    is_coplanar cM6 1 2 = true ∧
    (2 ∈ ((stateOf
        (space_topology_pass cM6 [1, 2, 3, 4, 5, 6])).boundary 1).coplanarWith ∧
     1 ∈ ((stateOf
        (space_topology_pass cM6 [1, 2, 3, 4, 5, 6])).boundary 2).coplanarWith) :=
  ⟨by decide, by decide, rfl,
    coplanar_pairs_registered cM6 [1, 2, 3, 4, 5, 6] 1 2 (by decide) (by decide)
      rfl⟩

/-- C2: evaluation of the hosting loop at the failing input `cH`.  Boundary 3
is hosted with the two coplanar candidates 2 and 4, so the claim requires its
`ParentBoundary` to stay unset (which it does) and requires boundary 3 to be
appended to no `InnerBoundaries` list; the source instead appends it to stale
`host_element` boundary 2 — left bound by boundary 1's iteration — so
boundary 2 ends with `InnerBoundaries = [1, 3]`. -/
theorem hosted_multi_coplanar_attached_to_stale_host :
    (cH.boundary 3).isHosted = true ∧
    (cH.boundary 3).coplanarWith = [2, 4] ∧
    ((stateOf (hosting_loop cH none [1, 2, 3, 4])).boundary 3).parentBoundary
      = none ∧
    ((stateOf (hosting_loop cH none [1, 2, 3, 4])).boundary 2).innerBoundaries
      = [1, 3] := by
  refine ⟨rfl, rfl, ?_, ?_⟩ <;> decide

theorem setCorr_boundary (m : Model) (i v j : Nat) :
    (m.setCorr i v).boundary j =
      if j = i then { m.boundary i with correspondingBoundary := some v }
      else m.boundary j := by
  by_cases h : j = i <;> simp [Model.setCorr, Model.setBoundary, h]

/-- C3 (counterexample): running the matcher over the concrete document `cM3`
(element 0 provides the INTERNAL boundaries 1, 2, 3 in three distinct spaces)
leaves boundary 1 pointing at boundary 2 while boundary 2 points at
boundary 3: processing boundary 3 re-selected the already-paired boundary 2
(it lies in a different space, so the filter keeps it) and overwrote its link,
so the final `CorrespondingBoundary` relation is not symmetric and boundary
2's link was set twice. -/
theorem corresponding_boundary_asymmetric :
    ((stateOf (matcher_loop cM3 [1, 2, 3])).boundary 1).correspondingBoundary
      = some 2 ∧
    ((stateOf (matcher_loop cM3 [1, 2, 3])).boundary 2).correspondingBoundary
      = some 3 := by
  constructor <;> decide

/-- C3 (amended): a single `associate_corresponding_boundary` step skips a
boundary that is not INTERNAL or already paired, and on a successful pairing
assigns both links together in that one step, immediately mutually; but the
selected partner is not itself required to be INTERNAL or unpaired, and a
later step may overwrite a paired boundary reachable from another space, so
symmetry at the end of the whole pass is not guaranteed. -/
theorem associate_sets_both_links (m : Model) (bid : Nat) (m' : Model)
    (h : associate_corresponding_boundary m bid = Except.ok m') :
    (((m.boundary bid).internalOrExternalBoundary ≠ IntExtClass.INTERNAL ∨
        (m.boundary bid).correspondingBoundary ≠ none) → m' = m) ∧
    ((m.boundary bid).internalOrExternalBoundary = IntExtClass.INTERNAL →
      (m.boundary bid).correspondingBoundary = none →
      ∃ c, (m'.boundary bid).correspondingBoundary = some c ∧
        (m'.boundary c).correspondingBoundary = some bid) := by
  constructor
  · intro hskip
    unfold associate_corresponding_boundary at h
    rw [if_pos hskip] at h
    injection h with h
    exact h.symm
  · intro hint hnone
    unfold associate_corresponding_boundary at h
    rw [if_neg (by simp [hint, hnone])] at h
    rcases hsel : select_candidate (m.boundary bid).centerOfMass m
        (clean_corresponding_candidates m bid) with - | c
    · rw [hsel] at h
      simp at h
    · rw [hsel] at h
      injection h with h
      rw [← h]
      refine ⟨c, ?_, ?_⟩
      · rw [setCorr_boundary]
        by_cases hbc : bid = c
        · rw [if_pos hbc, hbc]
        · rw [if_neg hbc, setCorr_boundary, if_pos rfl]
      · rw [setCorr_boundary, if_pos rfl]

theorem associate_sets_both_links_witness :
    (cM1.boundary 1).internalOrExternalBoundary = IntExtClass.INTERNAL ∧
    (cM1.boundary 1).correspondingBoundary = none ∧
    ∃ m', associate_corresponding_boundary cM1 1 = Except.ok m' ∧
      ∃ c, (m'.boundary 1).correspondingBoundary = some c ∧
        (m'.boundary c).correspondingBoundary = some 1 := by
  refine ⟨rfl, rfl, ?_⟩
  obtain ⟨m', hm'⟩ :
      ∃ m', associate_corresponding_boundary cM1 1 = Except.ok m' := ⟨_, rfl⟩
  exact ⟨m', hm', (associate_sets_both_links cM1 1 m' hm').2 rfl rfl⟩

theorem select_candidate_far_fold (center : Vec3) (m : Model)
    (cands : List Nat)
    (hfar : ∀ c ∈ cands,
      (100000000 : ℤ) ≤ distSq center (m.boundary c).centerOfMass) :
    (cands.foldl
      (fun acc c =>
        if distSq center (m.boundary c).centerOfMass < acc.1 then
          (distSq center (m.boundary c).centerOfMass, some c)
        else acc)
      ((100000000 : ℤ), (none : Option Nat))) = ((100000000 : ℤ), none) := by
  induction cands with
  | nil => rfl
  | cons c rest ih =>
    simp only [List.foldl_cons]
    rw [if_neg (not_lt.mpr (hfar c (List.mem_cons_self c rest)))]
    exact ih fun x hx => hfar x (List.mem_cons_of_mem c hx)

/-- C10: when the matcher runs on an INTERNAL, unpaired boundary and either
no candidate remains, or more than one remains with every candidate's centroid
at least 10000 working units away (squared distance at least 100000000), the
running minimum never binds `corresponding_boundary`, so line 190 raises
`NameError` before either link assignment, and the carried state is the
untouched input state — no `CorrespondingBoundary` field changes. -/
theorem matcher_unbound_error (m : Model) (bid : Nat)
    (h1 : (m.boundary bid).internalOrExternalBoundary = IntExtClass.INTERNAL)
    (h2 : (m.boundary bid).correspondingBoundary = none)
    (h3 : clean_corresponding_candidates m bid = [] ∨
      (1 < (clean_corresponding_candidates m bid).length ∧
        ∀ c ∈ clean_corresponding_candidates m bid,
          (100000000 : ℤ) ≤
            distSq (m.boundary bid).centerOfMass (m.boundary c).centerOfMass)) :
    associate_corresponding_boundary m bid =
      Except.error ("NameError: corresponding_boundary", m) := by
  unfold associate_corresponding_boundary
  rw [if_neg (by simp [h1, h2])]
  have hsel : select_candidate (m.boundary bid).centerOfMass m
      (clean_corresponding_candidates m bid) = none := by
    rcases h3 with hempty | ⟨hlen, hfar⟩
    · rw [hempty]
      rfl
    · rcases hcands : clean_corresponding_candidates m bid with - | ⟨c1, - | ⟨c2, cs⟩⟩
    
      · rfl
      · rw [hcands] at hlen
        simp at hlen
      · rw [hcands] at hfar
        have e : select_candidate (m.boundary bid).centerOfMass m
            (c1 :: c2 :: cs) =
            ((c1 :: c2 :: cs).foldl
              (fun acc c =>
                if distSq (m.boundary bid).centerOfMass
                    (m.boundary c).centerOfMass < acc.1 then
                  (distSq (m.boundary bid).centerOfMass
                    (m.boundary c).centerOfMass, some c)
                else acc)
              ((100000000 : ℤ), (none : Option Nat))).2 := rfl
        rw [e, select_candidate_far_fold _ _ _ hfar]
  rw [hsel]

theorem matcher_unbound_error_witness :
    (cM10.boundary 1).internalOrExternalBoundary = IntExtClass.INTERNAL ∧
    (cM10.boundary 1).correspondingBoundary = none ∧
    (1 < (clean_corresponding_candidates cM10 1).length ∧
      ∀ c ∈ clean_corresponding_candidates cM10 1,
        (100000000 : ℤ) ≤
          distSq (cM10.boundary 1).centerOfMass (cM10.boundary c).centerOfMass) ∧
    associate_corresponding_boundary cM10 1 =
      Except.error ("NameError: corresponding_boundary", cM10) :=
  ⟨rfl, rfl, ⟨by decide, by decide⟩,
    matcher_unbound_error cM10 1 rfl rfl (Or.inr ⟨by decide, by decide⟩)⟩

theorem setCorr_log (m : Model) (i v : Nat) :
    (m.setCorr i v).log = m.log ++ [PipelineEvent.assignCorresponding i v] :=
  rfl

theorem setParent_log (m : Model) (i v : Nat) :
    (m.setParent i v).log = m.log ++ [PipelineEvent.assignParent i v] :=
  rfl

theorem appendInner_log (m : Model) (host b : Nat) :
    (m.appendInner host b).log = m.log ++ [PipelineEvent.attachInner host b] :=
  rfl

theorem appendCoplanar_log (m : Model) (i v : Nat) :
    (m.appendCoplanar i v).log =
      m.log ++ [PipelineEvent.registerCoplanar i v] :=
  rfl

theorem associate_log (m : Model) (bid : Nat) :
    (∀ m', associate_corresponding_boundary m bid = Except.ok m' →
      ∃ l, m'.log = m.log ++ l ∧ ∀ e ∈ l, e.isCorrEvent = true) ∧
    (∀ s m'', associate_corresponding_boundary m bid = Except.error (s, m'') →
      m''.log = m.log) := by
  unfold associate_corresponding_boundary
  by_cases hg :
      (m.boundary bid).internalOrExternalBoundary ≠ IntExtClass.INTERNAL ∨
        (m.boundary bid).correspondingBoundary ≠ none
  · rw [if_pos hg]
    constructor
    · intro m' h
      injection h with h
      exact ⟨[], by simp [← h], by simp⟩
    · intro s m'' h
      simp at h
  · rw [if_neg hg]
    rcases hsel : select_candidate (m.boundary bid).centerOfMass m
        (clean_corresponding_candidates m bid) with - | c
    · constructor
      · intro m' h
        simp at h
      · intro s m'' h
        injection h with h
        rw [← (Prod.mk.injEq _ _ _ _).mp h |>.2]
    · constructor
      · intro m' h
        injection h with h
        refine ⟨[PipelineEvent.assignCorresponding bid c,
          PipelineEvent.assignCorresponding c bid], ?_,
            by simp [PipelineEvent.isCorrEvent]⟩
        rw [← h, setCorr_log, setCorr_log, List.append_assoc]
        rfl
      · intro s m'' h
        simp at h

theorem matcher_loop_log (bl : List Nat) :
    ∀ m : Model, ∃ l, (stateOf (matcher_loop m bl)).log = m.log ++ l ∧
      ∀ e ∈ l, e.isCorrEvent = true := by
  induction bl with
  | nil => exact fun m => ⟨[], by simp [matcher_loop, stateOf], by simp⟩
  | cons bid rest ih =>
    intro m
    simp only [matcher_loop]
    rcases hassoc : associate_corresponding_boundary m bid with ⟨s, m''⟩ | m1
    · have hlog := (associate_log m bid).2 s m'' hassoc
      exact ⟨[], by simp [stateOf, hlog], by simp⟩
    · obtain ⟨la, hla, hca⟩ := (associate_log m bid).1 m1 hassoc
      obtain ⟨lr, hlr, hcr⟩ := ih m1
      refine ⟨la ++ lr, ?_, ?_⟩
      · rw [hlr, hla, List.append_assoc]
      · intro e he
        exact (List.mem_append.mp he).elim (hca e) (hcr e)

theorem coplanarity_loop_log (ps : List (Nat × Nat)) :
    ∀ m : Model, ∃ l, (coplanarity_loop m ps).log = m.log ++ l ∧
      ∀ e ∈ l, e.isTopoEvent = true := by
  induction ps with
  | nil => exact fun m => ⟨[], by simp [coplanarity_loop], by simp⟩
  | cons p rest ih =>
    intro m
    simp only [coplanarity_loop]
    split
    · obtain ⟨l, hl, hc⟩ := ih ((m.appendCoplanar p.1 p.2).appendCoplanar p.2 p.1)
      refine ⟨[PipelineEvent.registerCoplanar p.1 p.2,
        PipelineEvent.registerCoplanar p.2 p.1] ++ l, ?_, ?_⟩
      · rw [hl, appendCoplanar_log, appendCoplanar_log]
        simp
      · intro e he
        rcases List.mem_append.mp he with h2 | h2
        · rcases List.mem_cons.mp h2 with h3 | h3
          · rw [h3]
            rfl
          · rw [List.mem_singleton.mp h3]
            rfl
        · exact hc e h2
    · exact ih m

theorem hosting_loop_log (bl : List Nat) :
    ∀ (m : Model) (hv : Option Nat),
      ∃ l, (stateOf (hosting_loop m hv bl)).log = m.log ++ l ∧
        ∀ e ∈ l, e.isTopoEvent = true := by
  induction bl with
  | nil => exact fun m hv => ⟨[], by simp [hosting_loop, stateOf], by simp⟩
  | cons bid rest ih =>
    intro m hv
    simp only [hosting_loop]
    split
    · split
    
      · rename_i h heq
        obtain ⟨l, hl, hc⟩ := ih ((m.setParent bid h).appendInner h bid) (some h)
        refine ⟨[PipelineEvent.assignParent bid h,
          PipelineEvent.attachInner h bid] ++ l, ?_, ?_⟩
        · rw [hl, appendInner_log, setParent_log]
          simp
        · intro e he
          rcases List.mem_append.mp he with h2 | h2
          · rcases List.mem_cons.mp h2 with h3 | h3
            · rw [h3]
              rfl
            · rw [List.mem_singleton.mp h3]
              rfl
          · exact hc e h2
      · split
        · exact ⟨[], by simp [stateOf], by simp⟩
        · rename_i h
          obtain ⟨l, hl, hc⟩ := ih (m.appendInner h bid) (some h)
          refine ⟨[PipelineEvent.attachInner h bid] ++ l, ?_, ?_⟩
          · rw [hl, appendInner_log, List.append_assoc]
          · intro e he
            rcases List.mem_append.mp he with h2 | h2
            · rw [List.mem_singleton.mp h2]
              rfl
            · exact hc e h2
    · exact ih m hv

theorem space_topology_pass_log (m : Model) (bids : List Nat) :
    ∃ l, (stateOf (space_topology_pass m bids)).log = m.log ++ l ∧
      ∀ e ∈ l, e.isTopoEvent = true := by
  unfold space_topology_pass
  split
  · exact ⟨[], by simp [stateOf], by simp⟩
  · obtain ⟨l1, hl1, hc1⟩ := coplanarity_loop_log (combinations2 bids) m
    obtain ⟨l2, hl2, hc2⟩ :=
      hosting_loop_log bids (coplanarity_loop m (combinations2 bids)) none
    refine ⟨l1 ++ l2, ?_, ?_⟩
    · rw [hl2, hl1, List.append_assoc]
    · intro e he
      exact (List.mem_append.mp he).elim (hc1 e) (hc2 e)

theorem topology_phase_log (spaces : List (List Nat)) :
    ∀ m : Model, ∃ l, (stateOf (topology_phase m spaces)).log = m.log ++ l ∧
      ∀ e ∈ l, e.isTopoEvent = true := by
  induction spaces with
  | nil => exact fun m => ⟨[], by simp [topology_phase, stateOf], by simp⟩
  | cons s rest ih =>
    intro m
    simp only [topology_phase]
    rcases hpass : space_topology_pass m s with ⟨str, m''⟩ | m1
    · obtain ⟨l, hl, hc⟩ := space_topology_pass_log m s
      rw [hpass] at hl
      simp only [stateOf] at hl
      exact ⟨l, by simp [stateOf, hl], hc⟩
    · obtain ⟨l1, hl1, hc1⟩ := space_topology_pass_log m s
      rw [hpass] at hl1
      simp only [stateOf] at hl1
      obtain ⟨l2, hl2, hc2⟩ := ih m1
      refine ⟨l1 ++ l2, ?_, ?_⟩
      · rw [hl2, hl1, List.append_assoc]
      · intro e he
        exact (List.mem_append.mp he).elim (hc1 e) (hc2 e)

/-- C8 (counterexample): on the concrete two-space document `cP` the pipeline
produces the event log
`[assignCorresponding 1 2, assignCorresponding 2 1, registerCoplanar 3 4,
registerCoplanar 4 3]`: both `CorrespondingBoundary` assignments happen before
any coplanarity registration, i.e. while every space's topology resolution is
still pending — the claimed ordering (topology first, matcher last) is the
reverse of what the code does. -/
theorem corresponding_assigned_before_topology :
    (stateOf (display_boundaries_resolution cP cPSpaces)).log =
      [PipelineEvent.assignCorresponding 1 2,
       PipelineEvent.assignCorresponding 2 1,
       PipelineEvent.registerCoplanar 3 4,
       PipelineEvent.registerCoplanar 4 3] ∧
    PipelineEvent.isCorrEvent (PipelineEvent.assignCorresponding 1 2) = true ∧
    PipelineEvent.isTopoEvent (PipelineEvent.registerCoplanar 3 4) = true := by
  refine ⟨by decide, rfl, rfl⟩

/-- C8 (amended): in `display_boundaries` the corresponding-boundary matcher
processes every boundary before any space's coplanarity/hosting resolution
begins: the pipeline's event log is a block of CorrespondingBoundary
assignments followed by a block of topology (coplanarity/hosting) events. -/
theorem matcher_precedes_topology (m : Model) (spaces : List (List Nat)) :
    ∃ l1 l2,
      (stateOf (display_boundaries_resolution m spaces)).log =
        m.log ++ l1 ++ l2 ∧
      (∀ e ∈ l1, e.isCorrEvent = true) ∧
      (∀ e ∈ l2, e.isTopoEvent = true) := by
  unfold display_boundaries_resolution
  rcases hm : matcher_loop m spaces.flatten with ⟨s, m''⟩ | m1
  · obtain ⟨l1, hl1, hc1⟩ := matcher_loop_log spaces.flatten m
    rw [hm] at hl1
    simp only [stateOf] at hl1
    exact ⟨l1, [], by simp [stateOf, hl1], hc1, by simp⟩
  · obtain ⟨l1, hl1, hc1⟩ := matcher_loop_log spaces.flatten m
    rw [hm] at hl1
    simp only [stateOf] at hl1
    obtain ⟨l2, hl2, hc2⟩ := topology_phase_log spaces m1
    exact ⟨l1, l2, by rw [hl2, hl1], hc1, hc2⟩
